import Mathlib

/-!
Shallow embedding of the influence-zone / leaf-morph core of the
Third-Person-Shooter-Game-R3F repository.

Numeric values are modelled as exact rationals (ℚ).  All the constants in the
source are small decimal fractions, and every arithmetic combination used by
the embedded code (addition, multiplication, min/max clamping, division in the
smoothstep helper) is exact on those inputs, so ℚ is a faithful carrier.

Sources embedded below:
  * src/demo/src/context/InfluenceZoneContext.tsx
      (getZoneEffect, updatePlayerZones, InfluenceZone, PlayerZoneState)
  * src/demo/src/systems/LeafGeometrySystem.ts
      (LeafProperties, clampLeafProperties, getLeafPropertiesFromZone,
       morphLeafProperties)
  * src/unnamed/part_003  (LeafMorphHistoryContext: DEFAULT_LEAF, clamp,
       blendLeafProperties, recordZoneMorph, getAccumulatedMorph)
  * src/demo/src/components/AdaptiveLeafMesh.tsx
      (zone-change useEffect and the useFrame morph-progress tick)
-/

/-- `Math.min` on two exact rationals. -/
def jsMin (a b : ℚ) : ℚ :=
  if a ≤ b then a else b

/-- `Math.max` on two exact rationals. -/
def jsMax (a b : ℚ) : ℚ :=
  if a ≤ b then b else a

/-- `clamp` helper shared by LeafGeometrySystem.ts and part_003:
`Math.max(min, Math.min(max, value))`. -/
def clamp (value lo hi : ℚ) : ℚ :=
  jsMax lo (jsMin hi value)

/-- JavaScript `x || d` for `x : number | undefined`: `undefined` and `0` are
falsy and yield the default `d`; any other number is returned unchanged.
Used to embed `effects[zone.type] || 1` in getZoneEffect. -/
def jsOrDefault (x : Option ℚ) (d : ℚ) : ℚ :=
  match x with
  | none => d
  | some v => if v = 0 then d else v

/-- THREE.MathUtils.smoothstep: clamps to [lo,hi] then applies 3t²−2t³. -/
def smoothstep (x lo hi : ℚ) : ℚ :=
  if x ≤ lo then 0
  else if hi ≤ x then 1
  else
    let t := (x - lo) / (hi - lo)
    t * t * (3 - 2 * t)

/-- THREE.MathUtils.lerp: `(1 - t) * x + t * y`. -/
def lerp (x y t : ℚ) : ℚ :=
  (1 - t) * x + t * y

/-- LeafProperties (LeafGeometrySystem.ts): five shape parameters. -/
structure LeafProperties where
  width : ℚ
  length : ℚ
  pointiness : ℚ
  surface : ℚ
  thickness : ℚ
deriving DecidableEq, Repr

/-- clampLeafProperties (LeafGeometrySystem.ts): width/pointiness/surface/
thickness clamp to [0,1], length clamps to [0.5,1.5]. -/
def clampLeafProperties (props : LeafProperties) : LeafProperties :=
  { width := clamp props.width 0 1
    length := clamp props.length (1/2) (3/2)
    pointiness := clamp props.pointiness 0 1
    surface := clamp props.surface 0 1
    thickness := clamp props.thickness 0 1 }

/-- DEFAULT_LEAF (part_003); also the fallback entry of
getLeafPropertiesFromZone in LeafGeometrySystem.ts. -/
def DEFAULT_LEAF : LeafProperties :=
  { width := 1/2, length := 1, pointiness := 1/2, surface := 3/10,
    thickness := 1/10 }

/-- getLeafPropertiesFromZone (LeafGeometrySystem.ts): fixed table keyed by
zone-type string, unknown strings fall back to the default entry; the result
is always passed through clampLeafProperties before being returned. -/
def getLeafPropertiesFromZone (zoneType : String) : LeafProperties :=
  let baseProps : LeafProperties :=
    if zoneType = "speed_boost" then
      { width := 4/5, length := 6/5, pointiness := 1/5, surface := 1/2,
        thickness := 12/100 }
    else if zoneType = "jump_boost" then
      { width := 3/10, length := 3/2, pointiness := 4/5, surface := 4/5,
        thickness := 18/100 }
    else if zoneType = "ice" then
      { width := 2/5, length := 4/5, pointiness := 3/5, surface := 9/10,
        thickness := 15/100 }
    else if zoneType = "slow" then
      { width := 3/5, length := 9/10, pointiness := 3/10, surface := 1/5,
        thickness := 1/5 }
    else if zoneType = "damage" then
      { width := 1/5, length := 3/5, pointiness := 9/10, surface := 1,
        thickness := 8/100 }
    else DEFAULT_LEAF
  clampLeafProperties baseProps

/-- morphLeafProperties (LeafGeometrySystem.ts): eased (smoothstep) per-field
lerp from `fromProps` to `toProps`, then clampLeafProperties. -/
def morphLeafProperties (fromProps toProps : LeafProperties) (progress : ℚ) :
    LeafProperties :=
  let eased := smoothstep progress 0 1
  clampLeafProperties
    { width := lerp fromProps.width toProps.width eased
      length := lerp fromProps.length toProps.length eased
      pointiness := lerp fromProps.pointiness toProps.pointiness eased
      surface := lerp fromProps.surface toProps.surface eased
      thickness := lerp fromProps.thickness toProps.thickness eased }

/-- blendLeafProperties (part_003): weighted average
`a * (1 - w) + b * w` per field with the weight itself clamped to [0,1],
each field clamped to its valid range (length to [0.5,1.5], rest to [0,1]). -/
def blendLeafProperties (a b : LeafProperties) (weightB : ℚ) : LeafProperties :=
  let w := clamp weightB 0 1
  { width := clamp (a.width * (1 - w) + b.width * w) 0 1
    length := clamp (a.length * (1 - w) + b.length * w) (1/2) (3/2)
    pointiness := clamp (a.pointiness * (1 - w) + b.pointiness * w) 0 1
    surface := clamp (a.surface * (1 - w) + b.surface * w) 0 1
    thickness := clamp (a.thickness * (1 - w) + b.thickness * w) 0 1 }

/-- THREE.Vector3 with exact rational coordinates. -/
structure Vec3 where
  x : ℚ
  y : ℚ
  z : ℚ
deriving DecidableEq, Repr

/-- Squared Euclidean distance between two points.  The source compares
`playerPos.distanceTo(zone.position) <= zone.radius`; since the distance is
the nonnegative square root of this quantity, `dist ≤ r` is equivalent to
`0 ≤ r ∧ distSq ≤ r²`, which keeps the embedding executable (no sqrt on ℚ).
The equivalence with the Euclidean distance is proved in claim C4. -/
def distSq (p q : Vec3) : ℚ :=
  (p.x - q.x) ^ 2 + (p.y - q.y) ^ 2 + (p.z - q.z) ^ 2

/-- InfluenceZone (InfluenceZoneContext.tsx).  The zone type is carried as a
string: TypeScript's `ZoneType` union is erased at runtime, and the effect /
leaf-property tables are runtime string-keyed records with fallbacks. -/
structure InfluenceZone where
  id : String
  type : String
  position : Vec3
  radius : ℚ
  color : String
  intensity : ℚ
  description : String
deriving DecidableEq, Repr

/-- PlayerZoneState (InfluenceZoneContext.tsx). -/
structure PlayerZoneState where
  activeZones : List InfluenceZone
  isInZone : Bool
  dominantZone : Option InfluenceZone
deriving DecidableEq, Repr

/-- The membership test inside updatePlayerZones:
`distance(playerPos, zone.position) <= zone.radius` (boundary inclusive),
in the sqrt-free form `0 ≤ radius ∧ distSq ≤ radius²`. -/
def isInside (playerPos : Vec3) (zone : InfluenceZone) : Bool :=
  decide (0 ≤ zone.radius ∧ distSq playerPos zone.position ≤ zone.radius ^ 2)

/-- updatePlayerZones (InfluenceZoneContext.tsx): filters the registry by the
membership test, in registration order; dominant is `active[0]` when the
active list is non-empty, otherwise null. -/
def updatePlayerZones (playerPos : Vec3) (zones : List InfluenceZone) :
    PlayerZoneState :=
  let active := zones.filter (isInside playerPos)
  { activeZones := active
    isInZone := decide (0 < active.length)
    dominantZone := if 0 < active.length then active.head? else none }

/-- The `effects` record literal inside getZoneEffect
(InfluenceZoneContext.tsx), as a partial string-keyed lookup (a record access
with a missing key yields `undefined` in JavaScript). -/
def effectsTable (zoneType : String) : Option ℚ :=
  if zoneType = "ice" then some (1/2)
  else if zoneType = "jump_boost" then some (3/2)
  else if zoneType = "damage" then some 0
  else if zoneType = "slow" then some (3/5)
  else if zoneType = "speed_boost" then some (3/2)
  else none

/-- getZoneEffect (InfluenceZoneContext.tsx): `effects[zone.type] || 1`.
Note the JavaScript `||`: both a missing key and the value `0` are falsy,
so both fall through to the default `1`. -/
def getZoneEffect (zone : InfluenceZone) : ℚ :=
  jsOrDefault (effectsTable zone.type) 1

/-- MorphHistory (part_003): zone id → recorded LeafProperties; a JavaScript
object with string keys, a missing key reads as `undefined`. -/
def MorphHistory : Type := String → Option LeafProperties

/-- The provider state of LeafMorphHistoryContext (part_003): the morphHistory
record and the currentMorph useState cell. -/
structure MorphState where
  morphHistory : MorphHistory
  currentMorph : LeafProperties

/-- Initial provider state: empty history, currentMorph = DEFAULT_LEAF. -/
def MorphState.initial : MorphState :=
  { morphHistory := fun _ => none, currentMorph := DEFAULT_LEAF }

/-- recordZoneMorph (part_003): upsert `zoneId ↦ props` into morphHistory. -/
def recordZoneMorph (s : MorphState) (zoneId : String)
    (props : LeafProperties) : MorphState :=
  { s with morphHistory := fun zid =>
      if zid = zoneId then some props else s.morphHistory zid }

/-- The fold inside getAccumulatedMorph (part_003): start from DEFAULT_LEAF and
blend each zone id's recorded properties with weight 0.5; an id with no
history entry is falsy in `if (morphHistory[zoneId])` and is skipped. -/
def accumulateMorph (history : MorphHistory) (zoneIds : List String) :
    LeafProperties :=
  zoneIds.foldl
    (fun accumulated zoneId =>
      match history zoneId with
      | some props => blendLeafProperties accumulated props (1/2)
      | none => accumulated)
    DEFAULT_LEAF

/-- getAccumulatedMorph (part_003): on the empty list it returns the stored
currentMorph unchanged; otherwise it folds (accumulateMorph) and stores the
result into currentMorph (setCurrentMorph).  Returns (result, new state). -/
def getAccumulatedMorph (s : MorphState) (zoneIds : List String) :
    LeafProperties × MorphState :=
  if zoneIds = [] then (s.currentMorph, s)
  else
    let accumulated := accumulateMorph s.morphHistory zoneIds
    (accumulated, { s with currentMorph := accumulated })

/-- LeafMorphState (AdaptiveLeafMesh.tsx).  The source stores the generated
BufferGeometry objects; since generateLeafGeometry is a pure function of its
LeafProperties argument, the geometries are modelled by the property sets they
were generated from. -/
structure LeafMorphState where
  currentProps : LeafProperties
  targetProps : LeafProperties
  morphProgress : ℚ
  isTransitioning : Bool
deriving DecidableEq, Repr

/-- The component-level mutable refs of AdaptiveLeafMesh.tsx that the
embedded logic touches: the morph state, previousZoneType (initially the
empty string) and the spore flag. -/
structure AdaptiveLeafState where
  morph : LeafMorphState
  previousZoneType : String
  showSpores : Bool
deriving DecidableEq, Repr

/-- The zone-change useEffect of AdaptiveLeafMesh.tsx: no-op when the zone
type is unchanged; otherwise captures
`getLeafPropertiesFromZone(previousZoneType.current || 'default')` as source
(JavaScript `||`: the initial empty string is falsy) and
`getLeafPropertiesFromZone(zoneType)` as target, resets progress to 0, sets
the transitioning and spore flags, and records the new previous type. -/
def onZoneChange (s : AdaptiveLeafState) (zoneType : String) :
    AdaptiveLeafState :=
  if zoneType = s.previousZoneType then s
  else
    let prevType := if s.previousZoneType = "" then "default"
                    else s.previousZoneType
    { morph :=
        { currentProps := getLeafPropertiesFromZone prevType
          targetProps := getLeafPropertiesFromZone zoneType
          morphProgress := 0
          isTransitioning := true }
      previousZoneType := zoneType
      showSpores := true }

/-- The morph-progress part of the useFrame callback of AdaptiveLeafMesh.tsx:
while transitioning, progress += delta * 2.0; on reaching or exceeding 1 it is
clamped to exactly 1 and the transitioning and spore flags clear.  The rest of
the callback (shader uniforms, mesh rotation) is rendering only and carries no
state read back by this logic. -/
def tickMorph (s : AdaptiveLeafState) (delta : ℚ) : AdaptiveLeafState :=
  if s.morph.isTransitioning then
    let p := s.morph.morphProgress + delta * 2
    if 1 ≤ p then
      { s with
          morph := { s.morph with morphProgress := 1, isTransitioning := false }
          showSpores := false }
    else
      { s with morph := { s.morph with morphProgress := p } }
  else s

/-- Spec-side predicate: every field of a LeafProperties is inside its valid
range (width, pointiness, surface, thickness in [0,1]; length in [0.5,1.5]). -/
def ValidLeaf (p : LeafProperties) : Prop :=
  0 ≤ p.width ∧ p.width ≤ 1 ∧
  1/2 ≤ p.length ∧ p.length ≤ 3/2 ∧
  0 ≤ p.pointiness ∧ p.pointiness ≤ 1 ∧
  0 ≤ p.surface ∧ p.surface ≤ 1 ∧
  0 ≤ p.thickness ∧ p.thickness ≤ 1

instance (p : LeafProperties) : Decidable (ValidLeaf p) := by
  unfold ValidLeaf; infer_instance

/-! ### Helper lemmas -/

/-- The lower clamp bound always holds. -/
lemma le_clamp (value lo hi : ℚ) : lo ≤ clamp value lo hi := by
  unfold clamp jsMax jsMin
  split_ifs <;> linarith

/-- The upper clamp bound holds whenever the interval is non-degenerate. -/
lemma clamp_le (value lo hi : ℚ) (h : lo ≤ hi) : clamp value lo hi ≤ hi := by
  unfold clamp jsMax jsMin
  split_ifs <;> linarith

/-- clampLeafProperties lands inside the valid ranges, for any input. -/
lemma validLeaf_clampLeafProperties (p : LeafProperties) :
    ValidLeaf (clampLeafProperties p) := by
  unfold ValidLeaf clampLeafProperties
  exact ⟨le_clamp _ _ _, clamp_le _ _ _ (by norm_num),
    le_clamp _ _ _, clamp_le _ _ _ (by norm_num),
    le_clamp _ _ _, clamp_le _ _ _ (by norm_num),
    le_clamp _ _ _, clamp_le _ _ _ (by norm_num),
    le_clamp _ _ _, clamp_le _ _ _ (by norm_num)⟩

/-- The head of a filtered list is the first element satisfying the test. -/
lemma head?_filter_eq_find? {α : Type} (p : α → Bool) (l : List α) :
    (l.filter p).head? = l.find? p := by
  induction l with
  | nil => rfl
  | cons a l ih =>
      by_cases h : p a = true
      · simp [List.filter_cons, List.find?, h]
      · simp only [Bool.not_eq_true] at h
        simp [List.filter_cons, List.find?, h, ih]

/-- A squared Euclidean distance is nonnegative. -/
lemma distSq_nonneg (p q : Vec3) : 0 ≤ distSq p q := by
  unfold distSq
  positivity

/-- Every value stored in the effects table is nonnegative. -/
lemma effectsTable_nonneg (zoneType : String) (v : ℚ)
    (h : effectsTable zoneType = some v) : 0 ≤ v := by
  unfold effectsTable at h
  split_ifs at h <;> simp_all <;> norm_num [← h]

/-- Auxiliary: the accumulation fold ignores ids with no history entry, so it
may equally be taken over the recorded ids only, from any start value. -/
lemma foldl_morph_filter (history : MorphHistory) (zoneIds : List String) :
    ∀ init : LeafProperties,
      List.foldl
        (fun accumulated zoneId =>
          match history zoneId with
          | some props => blendLeafProperties accumulated props (1/2)
          | none => accumulated)
        init zoneIds =
      List.foldl
        (fun accumulated zoneId =>
          match history zoneId with
          | some props => blendLeafProperties accumulated props (1/2)
          | none => accumulated)
        init (zoneIds.filter (fun zid => (history zid).isSome)) := by
  induction zoneIds with
  | nil => intro _; rfl
  | cons zid rest ih =>
      intro init
      rw [List.filter_cons]
      cases h : history zid with
      | none => simpa [h] using ih init
      | some props =>
          simpa [h] using ih (blendLeafProperties init props (1/2))

/-- Skipping unrecorded ids in the fold is folding over the recorded ids. -/
lemma accumulateMorph_filter_isSome (history : MorphHistory)
    (zoneIds : List String) :
    accumulateMorph history zoneIds =
      accumulateMorph history
        (zoneIds.filter (fun zid => (history zid).isSome)) := by
  unfold accumulateMorph
  exact foldl_morph_filter history zoneIds DEFAULT_LEAF

/-- Auxiliary: on a list whose ids are all recorded, the accumulation fold
blends every entry, from any start value. -/
lemma foldl_morph_getD (history : MorphHistory) (zoneIds : List String)
    (hrec : ∀ zid ∈ zoneIds, (history zid).isSome = true) :
    ∀ init : LeafProperties,
      List.foldl
        (fun accumulated zoneId =>
          match history zoneId with
          | some props => blendLeafProperties accumulated props (1/2)
          | none => accumulated)
        init zoneIds =
      List.foldl
        (fun accumulated zid =>
          blendLeafProperties accumulated ((history zid).getD DEFAULT_LEAF)
            (1/2))
        init zoneIds := by
  induction zoneIds with
  | nil => intro _; rfl
  | cons zid rest ih =>
      intro init
      have hz := hrec zid (by simp)
      cases h : history zid with
      | none => rw [h] at hz; simp at hz
      | some props =>
          simp only [List.foldl_cons, h, Option.getD_some]
          exact ih (fun z hz' => hrec z (by simp [hz'])) _

/-- On a list whose ids are all recorded, the fold blends every entry. -/
lemma accumulateMorph_eq_foldl (history : MorphHistory) (zoneIds : List String)
    (hrec : ∀ zid ∈ zoneIds, (history zid).isSome = true) :
    accumulateMorph history zoneIds =
      zoneIds.foldl
        (fun accumulated zid =>
          blendLeafProperties accumulated ((history zid).getD DEFAULT_LEAF)
            (1/2))
        DEFAULT_LEAF := by
  unfold accumulateMorph
  exact foldl_morph_getD history zoneIds hrec DEFAULT_LEAF

/-! ### Concrete scenario fixtures -/

/-- A zone of the given type at the origin with radius 3 (display metadata is
irrelevant to the embedded logic). -/
def testZone (zoneType : String) : InfluenceZone :=
  { id := "z-" ++ zoneType, type := zoneType, position := ⟨0, 0, 0⟩,
    radius := 3, color := "#FFFFFF", intensity := 1, description := "test" }

/-- The end-to-end registry of spec §8: ZoneA is a cold (ice) zone at the
origin with radius 3. -/
def zoneA : InfluenceZone :=
  { id := "zoneA", type := "ice", position := ⟨0, 0, 0⟩, radius := 3,
    color := "#87CEEB", intensity := 1, description := "cold" }

/-- The end-to-end registry of spec §8: ZoneB is a speed zone at (0,0,5) with
radius 3. -/
def zoneB : InfluenceZone :=
  { id := "zoneB", type := "speed_boost", position := ⟨0, 0, 5⟩, radius := 3,
    color := "#00FF00", intensity := 1, description := "speed" }

/-- Player position (0,0,2): inside both zoneA (distance 2) and zoneB
(distance 3, exactly on the boundary). -/
def pAB : Vec3 := ⟨0, 0, 2⟩

/-- History state after recording the static mappings of a speed_boost zone
and a jump_boost zone (the §8 accumulator example). -/
def historyExample : MorphState :=
  recordZoneMorph
    (recordZoneMorph MorphState.initial "speed_boost"
      (getLeafPropertiesFromZone "speed_boost"))
    "jump_boost" (getLeafPropertiesFromZone "jump_boost")

/-! ### Claims -/

/-- C1: the effect-mapper table does map cold (ice) to 0.5, jump_boost to
1.5, slow to 0.6, speed_boost to 1.5, an unmapped type to 1, and its entry
for hazard (damage) is 0 — but `effects[zone.type] || 1` treats the value 0
as falsy in JavaScript, so getZoneEffect returns 1 (not the claimed 0.0) for
a damage zone.  This theorem records the behavior at the failing input. -/
theorem getZoneEffect_table_values :
    getZoneEffect (testZone "ice") = 1/2 ∧
    getZoneEffect (testZone "jump_boost") = 3/2 ∧
    effectsTable "damage" = some 0 ∧
    getZoneEffect (testZone "damage") = 1 ∧
    getZoneEffect (testZone "slow") = 3/5 ∧
    getZoneEffect (testZone "speed_boost") = 3/2 ∧
    getZoneEffect (testZone "lava") = 1 := by
  with_unfolding_all decide

/-- C9: for every zone — any of the five declared types or any unknown type
string — getZoneEffect returns a strictly positive multiplier; in particular
it never returns 0, the `|| 1` fallback mapping both a missing entry and the
0 entry of the damage type to 1. -/
theorem getZoneEffect_pos (zone : InfluenceZone) : 0 < getZoneEffect zone := by
  unfold getZoneEffect jsOrDefault
  cases h : effectsTable zone.type with
  | none => norm_num
  | some v =>
      have hv := effectsTable_nonneg zone.type v h
      by_cases h0 : v = 0
      · simp only [h0, if_true]
        norm_num
      · simp only [h0, if_false]
        exact lt_of_le_of_ne hv (Ne.symm h0)

/-- C2: on a non-empty list of zone ids that all have recorded MorphHistory
entries, getAccumulatedMorph is the left fold from DEFAULT_LEAF blending each
recorded property set in visitation order with weight 0.5; in particular in
historyExample, visiting speed_boost yields accumulated width 0.65 and then
jump_boost yields width 0.475. -/
theorem getAccumulatedMorph_is_foldl (s : MorphState) (zoneIds : List String)
    (hne : zoneIds ≠ [])
    (hrec : ∀ zid ∈ zoneIds, (s.morphHistory zid).isSome = true) :
    (getAccumulatedMorph s zoneIds).1 =
      zoneIds.foldl
        (fun accumulated zid =>
          blendLeafProperties accumulated
            ((s.morphHistory zid).getD DEFAULT_LEAF) (1/2))
        DEFAULT_LEAF ∧
    (getAccumulatedMorph historyExample ["speed_boost"]).1.width = 13/20 ∧
    (getAccumulatedMorph historyExample
      ["speed_boost", "jump_boost"]).1.width = 19/40 := by
  refine ⟨?_, ?_, ?_⟩
  · unfold getAccumulatedMorph
    rw [if_neg hne]
    exact accumulateMorph_eq_foldl s.morphHistory zoneIds hrec
  · with_unfolding_all decide
  · with_unfolding_all decide

/-- Witness for C2 at the concrete §8 scenario: the hypotheses hold for
historyExample with the visit list [speed_boost, jump_boost], and the fold
characterization applies there. -/
theorem getAccumulatedMorph_is_foldl_witness :
    ((["speed_boost", "jump_boost"] : List String) ≠ [] ∧
      ∀ zid ∈ (["speed_boost", "jump_boost"] : List String),
        (historyExample.morphHistory zid).isSome = true) ∧
    ((getAccumulatedMorph historyExample ["speed_boost", "jump_boost"]).1 =
        (["speed_boost", "jump_boost"] : List String).foldl
          (fun accumulated zid =>
            blendLeafProperties accumulated
              ((historyExample.morphHistory zid).getD DEFAULT_LEAF) (1/2))
          DEFAULT_LEAF ∧
      (getAccumulatedMorph historyExample ["speed_boost"]).1.width = 13/20 ∧
      (getAccumulatedMorph historyExample
        ["speed_boost", "jump_boost"]).1.width = 19/40) :=
  ⟨⟨by decide, by with_unfolding_all decide⟩,
    getAccumulatedMorph_is_foldl historyExample ["speed_boost", "jump_boost"]
      (by decide) (by with_unfolding_all decide)⟩

/-- C8: a zone id with no recorded MorphHistory entry is not an error:
getAccumulatedMorph (total by construction) treats it as "no recorded morph
yet" — it contributes nothing to the fold, which therefore ranges over the
recorded ids only and stays at the DEFAULT_LEAF start value when no id on a
non-empty list is recorded. -/
theorem getAccumulatedMorph_unknown_ids (s : MorphState)
    (zoneIds : List String) (hne : zoneIds ≠ []) :
    (getAccumulatedMorph s zoneIds).1 =
      accumulateMorph s.morphHistory
        (zoneIds.filter (fun zid => (s.morphHistory zid).isSome)) ∧
    ((∀ zid ∈ zoneIds, s.morphHistory zid = none) →
      (getAccumulatedMorph s zoneIds).1 = DEFAULT_LEAF) := by
  have hbase : (getAccumulatedMorph s zoneIds).1 =
      accumulateMorph s.morphHistory zoneIds := by
    unfold getAccumulatedMorph
    rw [if_neg hne]
  constructor
  · rw [hbase]
    exact accumulateMorph_filter_isSome s.morphHistory zoneIds
  · intro hnone
    rw [hbase, accumulateMorph_filter_isSome]
    have hfil : zoneIds.filter (fun zid => (s.morphHistory zid).isSome) = [] := by
      rw [List.filter_eq_nil_iff]
      intro zid hz
      simp [hnone zid hz]
    rw [hfil]
    rfl

/-- Witness for C8: the list ["never-visited"] is non-empty, its only id is
unrecorded in historyExample, and the accumulated morph there evaluates to
DEFAULT_LEAF. -/
theorem getAccumulatedMorph_unknown_ids_witness :
    ((["never-visited"] : List String) ≠ [] ∧
      ∀ zid ∈ (["never-visited"] : List String),
        historyExample.morphHistory zid = none) ∧
    ((getAccumulatedMorph historyExample ["never-visited"]).1 =
        accumulateMorph historyExample.morphHistory
          ((["never-visited"] : List String).filter
            (fun zid => (historyExample.morphHistory zid).isSome)) ∧
      ((∀ zid ∈ (["never-visited"] : List String),
          historyExample.morphHistory zid = none) →
        (getAccumulatedMorph historyExample ["never-visited"]).1 =
          DEFAULT_LEAF)) :=
  ⟨⟨by decide, by with_unfolding_all decide⟩,
    getAccumulatedMorph_unknown_ids historyExample ["never-visited"]
      (by decide)⟩

/-- C10: on the empty id list getAccumulatedMorph returns the stored
currentMorph — initially DEFAULT_LEAF, and after any non-empty accumulation
the value that accumulation produced — rather than performing a fresh fold;
after accumulating over historyExample's speed_boost visit, the empty-list
result has width 0.65 and so differs from DEFAULT_LEAF. -/
theorem getAccumulatedMorph_nil_returns_current (s : MorphState)
    (zid : String) (rest : List String) :
    (getAccumulatedMorph s []).1 = s.currentMorph ∧
    (getAccumulatedMorph MorphState.initial []).1 = DEFAULT_LEAF ∧
    (getAccumulatedMorph (getAccumulatedMorph s (zid :: rest)).2 []).1 =
      (getAccumulatedMorph s (zid :: rest)).1 ∧
    (getAccumulatedMorph
        (getAccumulatedMorph historyExample ["speed_boost"]).2 []).1 ≠
      DEFAULT_LEAF := by
  refine ⟨rfl, rfl, ?_, ?_⟩
  · unfold getAccumulatedMorph
    simp
  · with_unfolding_all decide

/-- Bridging lemma: comparing the Euclidean distance (the real square root of
the squared distance) against the radius is exactly the sqrt-free test used
in isInside. -/
lemma sqrt_le_radius_iff (d r : ℚ) :
    Real.sqrt ((d : ℝ)) ≤ (r : ℝ) ↔ (0 ≤ r ∧ d ≤ r ^ 2) := by
  constructor
  · intro h
    have hr : (0 : ℝ) ≤ (r : ℝ) := le_trans (Real.sqrt_nonneg _) h
    have hd2 : (d : ℝ) ≤ (r : ℝ) ^ 2 := (Real.sqrt_le_left hr).mp h
    exact ⟨by exact_mod_cast hr, by exact_mod_cast hd2⟩
  · rintro ⟨hr, hd2⟩
    exact (Real.sqrt_le_left (by exact_mod_cast hr)).mpr (by exact_mod_cast hd2)

/-- C3: the dominant zone is the first zone in registration order whose
membership test passes (`find?` over the registry list); in particular for
two zones A and B both containing p, the registry [A, B] yields dominant A
and the registry [B, A] yields dominant B. -/
theorem updatePlayerZones_dominant_first (p : Vec3) (A B : InfluenceZone)
    (hA : isInside p A = true) (hB : isInside p B = true) :
    (∀ zones : List InfluenceZone,
      (updatePlayerZones p zones).dominantZone = zones.find? (isInside p)) ∧
    (updatePlayerZones p [A, B]).dominantZone = some A ∧
    (updatePlayerZones p [B, A]).dominantZone = some B := by
  have hdom : ∀ zones : List InfluenceZone,
      (updatePlayerZones p zones).dominantZone = zones.find? (isInside p) := by
    intro zones
    show (if 0 < (zones.filter (isInside p)).length
          then (zones.filter (isInside p)).head? else none) = _
    rw [← head?_filter_eq_find?]
    cases h : zones.filter (isInside p) with
    | nil => simp [h]
    | cons z l => simp [h]
  refine ⟨hdom, ?_, ?_⟩
  · rw [hdom]
    simp [List.find?, hA]
  · rw [hdom]
    simp [List.find?, hB]

/-- Witness for C3 at the §8 end-to-end scenario: the player at (0,0,2) is
inside both zoneA (distance 2 ≤ 3) and zoneB (distance 3 = radius), and
registration order alone decides dominance. -/
theorem updatePlayerZones_dominant_first_witness :
    (isInside pAB zoneA = true ∧ isInside pAB zoneB = true) ∧
    ((updatePlayerZones pAB [zoneA, zoneB]).dominantZone = some zoneA ∧
      (updatePlayerZones pAB [zoneB, zoneA]).dominantZone = some zoneB) :=
  ⟨⟨by with_unfolding_all decide, by with_unfolding_all decide⟩,
    (updatePlayerZones_dominant_first pAB zoneA zoneB
      (by with_unfolding_all decide) (by with_unfolding_all decide)).2⟩

/-- C4: the active-zone set is exactly the sublist of the registry whose
Euclidean distance from the player position to the zone center is at most
the zone radius; the boundary case distance = radius counts as inside, as
zoneB (distance exactly 3 = radius) being active at pAB shows. -/
theorem updatePlayerZones_active_euclidean (p : Vec3)
    (zones : List InfluenceZone) (z : InfluenceZone) :
    ((updatePlayerZones p zones).activeZones = zones.filter (isInside p)) ∧
    (z ∈ (updatePlayerZones p zones).activeZones ↔
      z ∈ zones ∧
        Real.sqrt ((distSq p z.position : ℚ) : ℝ) ≤ (z.radius : ℝ)) ∧
    zoneB ∈ (updatePlayerZones pAB [zoneA, zoneB]).activeZones := by
  refine ⟨rfl, ?_, by with_unfolding_all decide⟩
  show z ∈ zones.filter (isInside p) ↔ _
  rw [List.mem_filter]
  unfold isInside
  rw [decide_eq_true_eq, sqrt_le_radius_iff]

/-- Out-of-range blend fixture: width 1.5, above the valid [0,1] range. -/
def overWidthA : LeafProperties := { DEFAULT_LEAF with width := 3/2 }

/-- Out-of-range blend fixture: width 1.3, above the valid [0,1] range. -/
def overWidthB : LeafProperties := { DEFAULT_LEAF with width := 13/10 }

/-- C5: for every input, including out-of-range ones, the zone-to-leaf
mapper, the interpolator and the history blend all produce LeafProperties
with every field in its valid range (width, pointiness, surface, thickness
in [0,1]; length in [0.5,1.5]); in particular a blend whose unclamped width
would be 1.4 yields width exactly 1. -/
theorem leaf_ranges_invariant :
    (∀ zoneType : String, ValidLeaf (getLeafPropertiesFromZone zoneType)) ∧
    (∀ (a b : LeafProperties) (progress : ℚ),
      ValidLeaf (morphLeafProperties a b progress)) ∧
    (∀ (a b : LeafProperties) (weightB : ℚ),
      ValidLeaf (blendLeafProperties a b weightB)) ∧
    overWidthA.width * (1/2) + overWidthB.width * (1/2) = 7/5 ∧
    (blendLeafProperties overWidthA overWidthB (1/2)).width = 1 := by
  refine ⟨?_, ?_, ?_, by with_unfolding_all decide,
    by with_unfolding_all decide⟩
  · intro zoneType
    unfold getLeafPropertiesFromZone
    exact validLeaf_clampLeafProperties _
  · intro a b progress
    unfold morphLeafProperties
    exact validLeaf_clampLeafProperties _
  · intro a b weightB
    unfold blendLeafProperties ValidLeaf
    exact ⟨le_clamp _ _ _, clamp_le _ _ _ (by norm_num),
      le_clamp _ _ _, clamp_le _ _ _ (by norm_num),
      le_clamp _ _ _, clamp_le _ _ _ (by norm_num),
      le_clamp _ _ _, clamp_le _ _ _ (by norm_num),
      le_clamp _ _ _, clamp_le _ _ _ (by norm_num)⟩

/-- An in-flight transition half-way through: the previously recorded type is
speed_boost and the morph is still transitioning at progress 0.5. -/
def midFlight : AdaptiveLeafState :=
  { morph :=
      { currentProps := getLeafPropertiesFromZone "ice"
        targetProps := getLeafPropertiesFromZone "speed_boost"
        morphProgress := 1/2
        isTransitioning := true }
    previousZoneType := "speed_boost"
    showSpores := true }

/-- C6: on every dominant zone-type change, including one that interrupts an
in-flight transition before progress reaches 1, the new transition captures
the previous type's static mapping getLeafPropertiesFromZone as the source —
the result is independent of the interrupted morph state, hence never the
currently-displayed interpolated value — captures the new type's mapping as
the target, resets progress to 0 and sets the transitioning flag. -/
theorem onZoneChange_captures_static (s : AdaptiveLeafState)
    (zoneType : String) (hchange : zoneType ≠ s.previousZoneType) :
    (onZoneChange s zoneType).morph.currentProps =
      getLeafPropertiesFromZone s.previousZoneType ∧
    (onZoneChange s zoneType).morph.targetProps =
      getLeafPropertiesFromZone zoneType ∧
    (onZoneChange s zoneType).morph.morphProgress = 0 ∧
    (onZoneChange s zoneType).morph.isTransitioning = true ∧
    (∀ interrupted : LeafMorphState,
      onZoneChange { s with morph := interrupted } zoneType =
        onZoneChange s zoneType) := by
  have hfall : getLeafPropertiesFromZone
      (if s.previousZoneType = "" then "default" else s.previousZoneType) =
      getLeafPropertiesFromZone s.previousZoneType := by
    by_cases h : s.previousZoneType = ""
    · rw [if_pos h, h]
      with_unfolding_all rfl
    · rw [if_neg h]
  refine ⟨?_, ?_, ?_, ?_, ?_⟩ <;>
    simp only [onZoneChange, if_neg hchange]
  · exact hfall
  · exact fun _ => trivial

/-- Witness for C6: changing the dominant type to jump_boost while midFlight
is half-way through a transition towards speed_boost. -/
theorem onZoneChange_captures_static_witness :
    ("jump_boost" ≠ midFlight.previousZoneType) ∧
    ((onZoneChange midFlight "jump_boost").morph.currentProps =
        getLeafPropertiesFromZone midFlight.previousZoneType ∧
      (onZoneChange midFlight "jump_boost").morph.targetProps =
        getLeafPropertiesFromZone "jump_boost" ∧
      (onZoneChange midFlight "jump_boost").morph.morphProgress = 0 ∧
      (onZoneChange midFlight "jump_boost").morph.isTransitioning = true ∧
      (∀ interrupted : LeafMorphState,
        onZoneChange { midFlight with morph := interrupted } "jump_boost" =
          onZoneChange midFlight "jump_boost")) :=
  ⟨by with_unfolding_all decide,
    onZoneChange_captures_static midFlight "jump_boost"
      (by with_unfolding_all decide)⟩

/-- C7: on every tick with positive elapsed time while transitioning,
progress strictly increases and stays within [0,1]; once the incremented
progress reaches or exceeds 1, it is clamped to exactly 1 and the
transitioning flag clears; and a tick on a non-transitioning state is the
identity, so no further interpolation occurs until the next zone change. -/
theorem tickMorph_progress_invariants (s : AdaptiveLeafState) (delta : ℚ)
    (ht : s.morph.isTransitioning = true) (hpos : 0 < delta)
    (h0 : 0 ≤ s.morph.morphProgress) (h1 : s.morph.morphProgress < 1) :
    s.morph.morphProgress < (tickMorph s delta).morph.morphProgress ∧
    0 ≤ (tickMorph s delta).morph.morphProgress ∧
    (tickMorph s delta).morph.morphProgress ≤ 1 ∧
    (1 ≤ s.morph.morphProgress + delta * 2 →
      (tickMorph s delta).morph.morphProgress = 1 ∧
      (tickMorph s delta).morph.isTransitioning = false) ∧
    (∀ idle : AdaptiveLeafState, idle.morph.isTransitioning = false →
      ∀ d : ℚ, tickMorph idle d = idle) := by
  have hidle : ∀ idle : AdaptiveLeafState,
      idle.morph.isTransitioning = false → ∀ d : ℚ, tickMorph idle d = idle := by
    intro idle hi d
    unfold tickMorph
    rw [hi]
    simp
  by_cases hclamp : 1 ≤ s.morph.morphProgress + delta * 2
  · have hstep : (tickMorph s delta).morph.morphProgress = 1 ∧
        (tickMorph s delta).morph.isTransitioning = false := by
      unfold tickMorph
      rw [ht]
      simp only [if_true]
      rw [if_pos hclamp]
      exact ⟨rfl, rfl⟩
    refine ⟨?_, ?_, ?_, fun _ => hstep, hidle⟩
    · rw [hstep.1]; exact h1
    · rw [hstep.1]; norm_num
    · rw [hstep.1]
  · have hstep : (tickMorph s delta).morph.morphProgress =
        s.morph.morphProgress + delta * 2 := by
      unfold tickMorph
      rw [ht]
      simp only [if_true]
      rw [if_neg hclamp]
    push_neg at hclamp
    refine ⟨?_, ?_, ?_, fun hc => absurd hc (by linarith), hidle⟩
    · rw [hstep]; linarith
    · rw [hstep]; linarith
    · rw [hstep]; linarith

/-- Witness for C7: ticking midFlight (transitioning at progress 0.5) with
elapsed time 1/8 (progress increment 1/4). -/
theorem tickMorph_progress_invariants_witness :
    (midFlight.morph.isTransitioning = true ∧ (0 : ℚ) < 1/8 ∧
      0 ≤ midFlight.morph.morphProgress ∧ midFlight.morph.morphProgress < 1) ∧
    (midFlight.morph.morphProgress <
        (tickMorph midFlight (1/8)).morph.morphProgress ∧
      0 ≤ (tickMorph midFlight (1/8)).morph.morphProgress ∧
      (tickMorph midFlight (1/8)).morph.morphProgress ≤ 1 ∧
      (1 ≤ midFlight.morph.morphProgress + (1/8) * 2 →
        (tickMorph midFlight (1/8)).morph.morphProgress = 1 ∧
        (tickMorph midFlight (1/8)).morph.isTransitioning = false) ∧
      (∀ idle : AdaptiveLeafState, idle.morph.isTransitioning = false →
        ∀ d : ℚ, tickMorph idle d = idle)) :=
  ⟨⟨by with_unfolding_all decide, by with_unfolding_all decide,
      by with_unfolding_all decide, by with_unfolding_all decide⟩,
    tickMorph_progress_invariants midFlight (1/8)
      (by with_unfolding_all decide) (by with_unfolding_all decide)
      (by with_unfolding_all decide) (by with_unfolding_all decide)⟩
